import Mathlib

/-!
# Verification of `amethyst_renderer/src/sprite/prefab.rs`

A shallow embedding of the sprite-sheet prefab module of the Amethyst renderer:
the grid/list sprite resolvers, the coordinate normalizer, and the deferred
two-phase prefab-resolution protocol with its shared sheet registry.

Rust `u32`/`usize` values are modelled as `Nat`.  Rust integer division and
remainder panic on a zero divisor; they are embedded as `Option`-valued
operations where `none` models the panic, and every function that can reach
such a division (or an `unwrap`/`unreachable!`) is `Option`-valued as well.
Rust `u32` subtraction appears only as `sheet - position` and is modelled by
truncated `Nat` subtraction.  `f32` texture coordinates are modelled exactly
over `Rat`: every division the claims exercise is exact in `f32`.
-/

set_option autoImplicit false

namespace AmethystSprite

/-- Opaque asset-store handle for a loaded sprite sheet, modelled as a token. -/
abbrev SpriteSheetHandle := Nat

/-- Opaque asset-store handle for a loaded texture, modelled as a token. -/
abbrev TextureHandle := Nat

/-- Normalized texture coordinates of one sprite (`Sprite::tex_coords`). -/
structure TextureCoordinates where
  left : Rat
  right : Rat
  top : Rat
  bottom : Rat
  deriving DecidableEq, Repr

/-- One sprite region: pixel dimensions, pivot offsets and normalized
texture coordinates (the `Sprite` struct of `sprite/mod.rs`). -/
structure Sprite where
  width : Rat
  height : Rat
  offsets : Rat × Rat
  tex_coords : TextureCoordinates
  deriving DecidableEq, Repr

/-- Modelled from the spec: `Sprite::from_pixel_values` (the Coordinate
Normalizer) lives in `sprite/mod.rs`, which is not among the given sources;
the spec gives its contract exactly: given sheet pixel dimensions and a pixel
rectangle (origin top-left), produce
`tex_left = x / sheet_w`, `tex_right = (x + w) / sheet_w`,
`tex_top = 1 - y / sheet_h`, `tex_bottom = 1 - (y + h) / sheet_h`,
with no bounds validation. -/
def Sprite.from_pixel_values (image_w image_h sprite_w sprite_h pixel_left pixel_top : Nat)
    (offsets : Rat × Rat) : Sprite :=
  { width := sprite_w
    height := sprite_h
    offsets := offsets
    tex_coords :=
      { left := (pixel_left : Rat) / (image_w : Rat)
        right := ((pixel_left : Rat) + (sprite_w : Rat)) / (image_w : Rat)
        top := 1 - (pixel_top : Rat) / (image_h : Rat)
        bottom := 1 - ((pixel_top : Rat) + (sprite_h : Rat)) / (image_h : Rat) } }

/-- One entry of a `SpriteList` (`SpritePosition`): a pixel rectangle with an
optional pivot offset. -/
structure SpritePosition where
  x : Nat
  y : Nat
  width : Nat
  height : Nat
  offsets : Option (Rat × Rat)
  deriving DecidableEq, Repr

/-- `SpriteList`: sheet dimensions plus the declared sprite rectangles. -/
structure SpriteList where
  width : Nat
  height : Nat
  sprites : List SpritePosition
  deriving DecidableEq, Repr

/-- `SpriteList::build_sprites`: one `Sprite` per entry, in declaration order,
offsets defaulting to `(0, 0)` (`pos.offsets.unwrap_or([0.0; 2])`). -/
def SpriteList.build_sprites (l : SpriteList) : List Sprite :=
  l.sprites.map fun pos =>
    Sprite.from_pixel_values l.width l.height pos.width pos.height pos.x pos.y
      (pos.offsets.getD (0, 0))

/-- `SpriteGrid`: a grid specification; `columns` is required, the rest are
optional and inferred. -/
structure SpriteGrid where
  width : Nat
  height : Nat
  columns : Nat
  rows : Option Nat
  count : Option Nat
  cell_size : Option (Nat × Nat)
  position : Option (Nat × Nat)
  deriving DecidableEq, Repr

/-- Rust `u32` division: panics (`none`) on a zero divisor. -/
def checkedDiv (a b : Nat) : Option Nat :=
  if b = 0 then none else some (a / b)

/-- Rust `u32` remainder: panics (`none`) on a zero divisor. -/
def checkedMod (a b : Nat) : Option Nat :=
  if b = 0 then none else some (a % b)

/-- `SpriteGrid::position`: `self.position.unwrap_or((0, 0))`. -/
def SpriteGrid.positionResolved (g : SpriteGrid) : Nat × Nat :=
  g.position.getD (0, 0)

/-- `SpriteGrid::width`: `self.width - self.position().0` (available width). -/
def SpriteGrid.widthAvail (g : SpriteGrid) : Nat :=
  g.width - g.positionResolved.1

/-- `SpriteGrid::height`: `self.height - self.position().1` (available height). -/
def SpriteGrid.heightAvail (g : SpriteGrid) : Nat :=
  g.height - g.positionResolved.2

/-- `SpriteGrid::rows`: the explicit `rows` if given; else from `count`
(rounding the division up); else from `cell_size` (truncating division of the
available height); else `1`. -/
def SpriteGrid.rowsResolved (g : SpriteGrid) : Option Nat :=
  match g.rows with
  | some r => some r
  | none =>
    match g.count with
    | some c => do
      let m ← checkedMod c g.columns
      let d ← checkedDiv c g.columns
      if m = 0 then pure d else pure (d + 1)
    | none =>
      match g.cell_size with
      | some cs => checkedDiv g.heightAvail cs.2
      | none => some 1

/-- `SpriteGrid::count`: the explicit `count` if given, else
`columns * rows()`. -/
def SpriteGrid.countResolved (g : SpriteGrid) : Option Nat :=
  match g.count with
  | some c => some c
  | none => do
    let r ← g.rowsResolved
    pure (g.columns * r)

/-- `SpriteGrid::cell_size`: the explicit `cell_size` if given, else
`(width() / columns, height() / rows())` by truncating division. -/
def SpriteGrid.cellSizeResolved (g : SpriteGrid) : Option (Nat × Nat) :=
  match g.cell_size with
  | some cs => some cs
  | none => do
    let w ← checkedDiv g.widthAvail g.columns
    let r ← g.rowsResolved
    let h ← checkedDiv g.heightAvail r
    pure (w, h)

/-- The condition of the first diagnostic warning in
`SpriteGrid::build_sprites`: the columns do not fit the available width.
Emitting it has no effect on the produced sprites. -/
def SpriteGrid.warnColumns (g : SpriteGrid) (cellW : Nat) : Bool :=
  g.columns * cellW > g.widthAvail

/-- The condition of the second diagnostic warning in
`SpriteGrid::build_sprites`: the rows do not fit the available height.
Emitting it has no effect on the produced sprites. -/
def SpriteGrid.warnRows (g : SpriteGrid) (rows cellH : Nat) : Bool :=
  rows * cellH > g.heightAvail

/-- `SpriteGrid::build_sprites`: resolve `rows`, `count`, `cell_size` and
`position`, then emit one sprite per cell `0 .. count-1` in row-major order
with `row = cell / columns`, `column = cell - row * columns`,
`x = column * cell_w + position.0`, `y = row * cell_h + position.1`, and a
zero pivot offset.  The two fit warnings are logging only. -/
def SpriteGrid.build_sprites (g : SpriteGrid) : Option (List Sprite) := do
  let _rows ← g.rowsResolved
  let count ← g.countResolved
  let cell_size ← g.cellSizeResolved
  let position := g.positionResolved
  (List.range count).mapM fun cell => do
    let row ← checkedDiv cell g.columns
    let column := cell - row * g.columns
    let x := column * cell_size.1 + position.1
    let y := row * cell_size.2 + position.2
    pure (Sprite.from_pixel_values g.width g.height cell_size.1 cell_size.2 x y (0, 0))

/-- `Sprites`: either an explicit list or a grid specification (the source's
variants are `Sprites::List` and `Sprites::Grid`; lowercased here so the
constructor does not shadow `List`). -/
inductive Sprites where
  | list (l : SpriteList)
  | grid (g : SpriteGrid)
  deriving DecidableEq, Repr

/-- `Sprites::build_sprites`: dispatch to the list or grid resolver. -/
def Sprites.build_sprites : Sprites → Option (List Sprite)
  | Sprites.list l => some l.build_sprites
  | Sprites.grid g => g.build_sprites

/-- The assembled `SpriteSheet` asset: a texture handle plus the concatenated
sprite list. -/
structure SpriteSheet where
  texture : TextureHandle
  sprites : List Sprite
  deriving DecidableEq, Repr

/-- Modelled from the spec: the external texture/asset store (`Loader` plus
`AssetStorage` of `amethyst_assets`, not among the given sources).  It hands
out opaque handles; the model issues fresh tokens from a counter. -/
structure Loader where
  next : Nat
  deriving DecidableEq, Repr

/-- Modelled from the spec: `Loader::load_from_data` submits an assembled
sheet to the asset store and returns an opaque fresh handle. -/
def Loader.load_from_data (st : Loader) (_data : SpriteSheet) : SpriteSheetHandle × Loader :=
  (st.next, { next := st.next + 1 })

/-- Modelled from the spec: `TexturePrefab` of `amethyst_assets` — either an
already-loaded texture handle or an unresolved texture description. -/
inductive TexturePrefab where
  | handle (h : TextureHandle)
  | data (d : Nat)
  deriving DecidableEq, Repr

/-- Modelled from the spec: `TexturePrefab::load_sub_assets` asks the texture
store to load an unresolved description, replacing it by the issued handle and
reporting whether the instance changed; an already-loaded handle is left
untouched. -/
def TexturePrefab.load_sub_assets : TexturePrefab → Loader → TexturePrefab × Loader × Bool
  | TexturePrefab.handle h, st => (TexturePrefab.handle h, st, false)
  | TexturePrefab.data _, st => (TexturePrefab.handle st.next, { next := st.next + 1 }, true)

/-- `SpriteSheetPrefab`: a loaded handle, or an unresolved sheet definition. -/
inductive SpriteSheetPrefab where
  | handle (h : SpriteSheetHandle)
  | sheet (texture : TexturePrefab) (sprites : List Sprites)
  deriving DecidableEq, Repr

/-- `SpriteSheetPrefab::load_sub_assets`: on the `Sheet` variant, load the
texture, build and concatenate the sprites (`flat_map`), submit the assembled
sheet to the store, replace `self` by the issued `Handle` and return `true`;
on the `Handle` variant do nothing and return `false`.  `none` models a panic
(a grid division by zero inside `build_sprites`, or the `unreachable!` when
the texture did not resolve to a handle). -/
def SpriteSheetPrefab.load_sub_assets :
    SpriteSheetPrefab → Loader → Option (SpriteSheetPrefab × Loader × Bool)
  | SpriteSheetPrefab.sheet texture sprites, st =>
    match texture.load_sub_assets st with
    | (TexturePrefab.handle texture_handle, st1, _) => do
      let built ← sprites.mapM Sprites.build_sprites
      let spritesheet : SpriteSheet := { texture := texture_handle, sprites := built.flatten }
      let hst := st1.load_from_data spritesheet
      pure (SpriteSheetPrefab.handle hst.1, hst.2, true)
    | (TexturePrefab.data _, _, _) => none
  | SpriteSheetPrefab.handle h, st => some (SpriteSheetPrefab.handle h, st, false)

/-- `SpriteSheetPrefab::add_to_entity`: returns the stored handle; reaching it
on an unresolved `Sheet` variant is the source's `unreachable!` (`none`). -/
def SpriteSheetPrefab.add_to_entity : SpriteSheetPrefab → Option SpriteSheetHandle
  | SpriteSheetPrefab.handle h => some h
  | SpriteSheetPrefab.sheet _ _ => none

/-- `SpriteSheetLoadedSet`: the shared sheet registry — an insertion-ordered
vector of sheet handles (`pub Vec<SpriteSheetHandle>`). -/
structure SpriteSheetLoadedSet where
  val : List SpriteSheetHandle
  deriving DecidableEq, Repr

/-- The runtime `SpriteRender` component. -/
structure SpriteRender where
  sprite_sheet : SpriteSheetHandle
  sprite_number : Nat
  deriving DecidableEq, Repr

/-- `SpriteRenderPrefab`: declared sheet/sprite indices plus the handle
resolved during loading (absent before). -/
structure SpriteRenderPrefab where
  sheet : Nat
  sprite_number : Nat
  handle : Option SpriteSheetHandle
  deriving DecidableEq, Repr

/-- `SpriteRenderPrefab::load_sub_assets`:
`self.handle = Some((system_data.1).0.get(self.sheet).cloned().unwrap()); Ok(false)` —
looks the declared sheet index up in the shared registry, stores the handle
and returns `false`; an out-of-range index panics through `Option::unwrap`
(`none`). -/
def SpriteRenderPrefab.load_sub_assets (p : SpriteRenderPrefab)
    (loadedSet : SpriteSheetLoadedSet) : Option (SpriteRenderPrefab × Bool) :=
  match loadedSet.val.get? p.sheet with
  | some h => some ({ p with handle := some h }, false)
  | none => none

/-- `SpriteRenderPrefab::add_to_entity`: inserts a `SpriteRender` built from
the resolved handle into the component store (modelled by returning the
inserted component); `self.handle.as_ref().unwrap()` panics (`none`) when the
prefab was never resolved. -/
def SpriteRenderPrefab.add_to_entity (p : SpriteRenderPrefab) : Option SpriteRender :=
  match p.handle with
  | some h => some { sprite_sheet := h, sprite_number := p.sprite_number }
  | none => none

/-- `SpriteScenePrefab`: optional sheet, render and transform sub-prefabs
(the transform plays no part in loading and is modelled by a token). -/
structure SpriteScenePrefab where
  sheet : Option SpriteSheetPrefab
  render : Option SpriteRenderPrefab
  transform : Option Nat
  deriving DecidableEq, Repr

/-- `SpriteScenePrefab::load_sub_assets`: if a sheet sub-prefab is present,
resolve it, then push its handle onto the shared registry — unconditionally,
on every call (`((system_data.1).1).0.push(sheet)`); if a render sub-prefab is
present, resolve it against the registry (its returned flag is discarded).
The returned flag is the sheet sub-prefab's flag, else `false`. -/
def SpriteScenePrefab.load_sub_assets (p : SpriteScenePrefab) (st : Loader)
    (loadedSet : SpriteSheetLoadedSet) :
    Option (SpriteScenePrefab × Loader × SpriteSheetLoadedSet × Bool) := do
  let step1 ←
    match p.sheet with
    | some sp => do
      let r ← sp.load_sub_assets st
      match r.1 with
      | SpriteSheetPrefab.handle h =>
        pure (some r.1, r.2.1, SpriteSheetLoadedSet.mk (loadedSet.val ++ [h]), r.2.2)
      | SpriteSheetPrefab.sheet _ _ => none
    | none => pure (p.sheet, st, loadedSet, false)
  let render1 ←
    match p.render with
    | some rp => do
      let rr ← rp.load_sub_assets step1.2.2.1
      pure (some rr.1)
    | none => pure p.render
  pure ({ p with sheet := step1.1, render := render1 }, step1.2.1, step1.2.2.1, step1.2.2.2)

/-- `SpriteScenePrefab::add_to_entity`: attach the render component (when
present) and the transform (when present); panics (`none`) if the render
sub-prefab was never resolved. -/
def SpriteScenePrefab.add_to_entity (p : SpriteScenePrefab) :
    Option (Option SpriteRender × Option Nat) := do
  let render ←
    match p.render with
    | some rp => do
      let c ← rp.add_to_entity
      pure (some c)
    | none => pure none
  pure (render, p.transform)

/-! ## Helper lemmas -/

/-- The source's conditional rounding-up of `c / b`
(`if c % b == 0 then c / b else c / b + 1`) is the ceiling `(c + b - 1) / b`. -/
theorem condCeil_eq (c b : Nat) (hb : b ≠ 0) :
    (if c % b = 0 then c / b else c / b + 1) = (c + b - 1) / b := by
  have hbpos : 0 < b := Nat.pos_of_ne_zero hb
  obtain ⟨q, r, hrb, rfl⟩ : ∃ q r, r < b ∧ c = b * q + r :=
    ⟨c / b, c % b, Nat.mod_lt c hbpos, (Nat.div_add_mod c b).symm⟩
  have hdiv : (b * q + r) / b = q := by
    rw [Nat.add_comm, Nat.add_mul_div_left r q hbpos, Nat.div_eq_of_lt hrb, Nat.zero_add]
  have hmod : (b * q + r) % b = r := by
    rw [Nat.add_comm, Nat.add_mul_mod_self_left, Nat.mod_eq_of_lt hrb]
  rw [hdiv, hmod]
  by_cases hr : r = 0
  · rw [if_pos hr]
    have h1 : b * q + r + b - 1 = (b - 1) + b * q := by omega
    rw [h1, Nat.add_mul_div_left (b - 1) q hbpos, Nat.div_eq_of_lt (by omega), Nat.zero_add]
  · rw [if_neg hr]
    have h1 : b * q + r + b - 1 = (r - 1) + b * (q + 1) := by
      have : b * (q + 1) = b * q + b := by ring
      omega
    rw [h1, Nat.add_mul_div_left (r - 1) (q + 1) hbpos, Nat.div_eq_of_lt (by omega), Nat.zero_add]

/-- `mapM` over `Option` succeeds pointwise: if the step function returns
`some` of a pure function everywhere on the list, the whole traversal is
`some` of the corresponding `map`. -/
theorem mapMOption_eq_map {α β : Type} (f : α → Option β) (f' : α → β) :
    ∀ l : List α, (∀ x ∈ l, f x = some (f' x)) → l.mapM f = some (l.map f')
  | [], _ => by rw [List.mapM_nil]; rfl
  | x :: xs, h => by
    rw [List.mapM_cons, h x (List.mem_cons_self x xs),
      mapMOption_eq_map f f' xs (fun y hy => h y (List.mem_cons_of_mem x hy))]
    rfl

/-- Closed form of `SpriteGrid.build_sprites`: whenever the three resolved
parameters are defined and `columns` is nonzero, the grid emits exactly the
row-major cells `0 .. count - 1`. -/
theorem build_sprites_closed_form (g : SpriteGrid) (r n cw ch : Nat)
    (hr : g.rowsResolved = some r) (hn : g.countResolved = some n)
    (hcs : g.cellSizeResolved = some (cw, ch)) (hcols : g.columns ≠ 0) :
    g.build_sprites = some ((List.range n).map fun cell =>
      Sprite.from_pixel_values g.width g.height cw ch
        ((cell - cell / g.columns * g.columns) * cw + g.positionResolved.1)
        (cell / g.columns * ch + g.positionResolved.2) (0, 0)) := by
  unfold SpriteGrid.build_sprites
  rw [hr, hn, hcs]
  simp only [Option.bind_eq_bind, Option.some_bind]
  refine mapMOption_eq_map _ _ _ ?_
  intro cell _
  simp only [checkedDiv, if_neg hcols, Option.bind_eq_bind, Option.some_bind]
  rfl

/-! ## Claim theorems -/

/-- C2: for every `GridSpec`, the resolved row count is the explicit `rows`
field when given (regardless of `count` or `cell_size`); else, when `count`
is given, `ceil(count / columns)` (written `(count + columns - 1) / columns`
over `Nat`); else, when `cell_size` is given, `available_height /
cell_height` by truncating integer division; else `1`. -/
theorem grid_rows_inference (g : SpriteGrid) :
    (∀ r, g.rows = some r → g.rowsResolved = some r) ∧
    (g.rows = none → ∀ c, g.count = some c → g.columns ≠ 0 →
      g.rowsResolved = some ((c + g.columns - 1) / g.columns)) ∧
    (g.rows = none → g.count = none → ∀ cw ch, g.cell_size = some (cw, ch) → ch ≠ 0 →
      g.rowsResolved = some (g.heightAvail / ch)) ∧
    (g.rows = none → g.count = none → g.cell_size = none → g.rowsResolved = some 1) := by
  refine ⟨?_, ?_, ?_, ?_⟩
  · intro r hr
    unfold SpriteGrid.rowsResolved
    rw [hr]
  · intro hrows c hc hcols
    unfold SpriteGrid.rowsResolved
    rw [hrows, hc]
    simp only [checkedMod, checkedDiv, if_neg hcols, Option.bind_eq_bind, Option.some_bind]
    rw [← condCeil_eq c g.columns hcols]
    by_cases hm : c % g.columns = 0
    · rw [if_pos hm, if_pos hm]; rfl
    · rw [if_neg hm, if_neg hm]; rfl
  · intro hrows hcount cw ch hcs hch
    unfold SpriteGrid.rowsResolved
    rw [hrows, hcount, hcs]
    simp [checkedDiv, hch]
  · intro h1 h2 h3
    unfold SpriteGrid.rowsResolved
    rw [h1, h2, h3]

/-- C2 witness: the four inference branches of `rows()` at concrete grids:
explicit rows win over `count` and `cell_size`; `count = 12, columns = 5`
rounds up to `3`; `cell_size = (150, 150)` on height `400` truncates to `2`;
no sizing hint defaults to `1`. -/
theorem grid_rows_inference_witness :
    SpriteGrid.rowsResolved ⟨200, 400, 5, some 5, some 3, some (7, 7), none⟩ = some 5 ∧
    SpriteGrid.rowsResolved ⟨200, 400, 5, none, some 12, none, none⟩ = some ((12 + 5 - 1) / 5) ∧
    SpriteGrid.rowsResolved ⟨200, 400, 5, none, none, some (150, 150), none⟩ =
      some (SpriteGrid.heightAvail ⟨200, 400, 5, none, none, some (150, 150), none⟩ / 150) ∧
    SpriteGrid.rowsResolved ⟨200, 400, 5, none, none, none, none⟩ = some 1 :=
  ⟨(grid_rows_inference _).1 5 rfl,
   (grid_rows_inference _).2.1 rfl 12 rfl (by decide),
   (grid_rows_inference _).2.2.1 rfl rfl 150 150 rfl (by decide),
   (grid_rows_inference _).2.2.2 rfl rfl rfl⟩

/-- C5: the resolved cell size is the explicit `cell_size` field when given,
overriding all inference; otherwise `(available_width / columns,
available_height / rows)` by truncating integer division, where
`available_width = sheet_width - position.x` and `available_height =
sheet_height - position.y`, the position defaulting to `(0, 0)`. -/
theorem grid_cell_size_inference (g : SpriteGrid) :
    (∀ cs, g.cell_size = some cs → g.cellSizeResolved = some cs) ∧
    (g.cell_size = none → ∀ r, g.rowsResolved = some r → g.columns ≠ 0 → r ≠ 0 →
      g.cellSizeResolved = some (g.widthAvail / g.columns, g.heightAvail / r)) ∧
    g.widthAvail = g.width - g.positionResolved.1 ∧
    g.heightAvail = g.height - g.positionResolved.2 ∧
    (g.position = none → g.positionResolved = (0, 0)) := by
  refine ⟨?_, ?_, rfl, rfl, ?_⟩
  · intro cs hcs
    unfold SpriteGrid.cellSizeResolved
    rw [hcs]
  · intro hnone r hr hcols hrne
    unfold SpriteGrid.cellSizeResolved
    rw [hnone, hr]
    simp only [checkedDiv, if_neg hcols, if_neg hrne, Option.bind_eq_bind, Option.some_bind]
    rfl
  · intro hp
    unfold SpriteGrid.positionResolved
    rw [hp]
    rfl

/-- C5 witness: the spec's override example
`{width:200, height:200, columns:4, cell_size:(100,100)}.cell_size() = (100,100)`,
and the inferred case `{width:200, height:400, columns:4, rows:4}` giving
`(50, 100)`. -/
theorem grid_cell_size_inference_witness :
    SpriteGrid.cellSizeResolved ⟨200, 200, 4, none, none, some (100, 100), none⟩ =
      some (100, 100) ∧
    SpriteGrid.cellSizeResolved ⟨200, 400, 4, some 4, none, none, none⟩ = some (50, 100) :=
  ⟨(grid_cell_size_inference ⟨200, 200, 4, none, none, some (100, 100), none⟩).1 (100, 100) rfl,
   ((grid_cell_size_inference ⟨200, 400, 4, some 4, none, none, none⟩).2.1 rfl 4 rfl
      (by decide) (by decide)).trans (by decide)⟩

/-- C10: with `columns = 0` and no explicit `cell_size`, grid resolution
performs an unguarded integer division by `columns`: `cell_size()` and
`build_sprites()` panic (`none` in the embedding, division by zero in the
code), and so does `rows()` whenever it infers the row count from `count`;
no guard exists anywhere on the path. -/
theorem grid_zero_columns_division (g : SpriteGrid)
    (hcols : g.columns = 0) (hcs : g.cell_size = none) :
    g.cellSizeResolved = none ∧ g.build_sprites = none ∧
    (g.rows = none → ∀ c, g.count = some c → g.rowsResolved = none) := by
  have hcell : g.cellSizeResolved = none := by
    unfold SpriteGrid.cellSizeResolved
    rw [hcs]
    simp [checkedDiv, hcols]
  refine ⟨hcell, ?_, ?_⟩
  · unfold SpriteGrid.build_sprites
    cases hr : g.rowsResolved <;> cases hn : g.countResolved <;> simp [hr, hn, hcell]
  · intro hrows c hc
    unfold SpriteGrid.rowsResolved
    rw [hrows, hc]
    simp [checkedMod, hcols]

/-- C10 witness: the grid `{width:100, height:100, columns:0, count:5}` has
no defined cell size, no defined sprite emission, and no defined row count. -/
theorem grid_zero_columns_division_witness :
    SpriteGrid.cellSizeResolved ⟨100, 100, 0, none, some 5, none, none⟩ = none ∧
    SpriteGrid.build_sprites ⟨100, 100, 0, none, some 5, none, none⟩ = none ∧
    SpriteGrid.rowsResolved ⟨100, 100, 0, none, some 5, none, none⟩ = none :=
  ⟨(grid_zero_columns_division ⟨100, 100, 0, none, some 5, none, none⟩ rfl rfl).1,
   (grid_zero_columns_division ⟨100, 100, 0, none, some 5, none, none⟩ rfl rfl).2.1,
   (grid_zero_columns_division ⟨100, 100, 0, none, some 5, none, none⟩ rfl rfl).2.2 rfl 5 rfl⟩

/-- C4: grid resolution emits exactly `count` regions (`count` = the explicit
`count` field when given, else `columns * resolved rows`), numbered
`0 .. count-1` in row-major order with `row = cell / columns` and
`column = cell - row * columns`, each with pixel origin
`x = column * cell_w + position.x`, `y = row * cell_h + position.y` and pivot
offset `(0, 0)`.  No fit condition is hypothesised: when the cells over-fit
the sheet (`warnColumns` / `warnRows`) only a diagnostic warning is emitted
and all `count` regions are still produced. -/
theorem grid_emission (g : SpriteGrid) (r n cw ch : Nat)
    (hr : g.rowsResolved = some r) (hn : g.countResolved = some n)
    (hcs : g.cellSizeResolved = some (cw, ch)) (hcols : g.columns ≠ 0) :
    (∀ c, g.count = some c → n = c) ∧
    (g.count = none → n = g.columns * r) ∧
    ∃ l, g.build_sprites = some l ∧ l.length = n ∧
      ∀ cell, cell < n → l.get? cell =
        some (Sprite.from_pixel_values g.width g.height cw ch
          ((cell - cell / g.columns * g.columns) * cw + g.positionResolved.1)
          (cell / g.columns * ch + g.positionResolved.2) (0, 0)) := by
  refine ⟨?_, ?_, ?_⟩
  · intro c hc
    unfold SpriteGrid.countResolved at hn
    rw [hc] at hn
    exact (Option.some.inj hn).symm
  · intro hc
    unfold SpriteGrid.countResolved at hn
    rw [hc, hr] at hn
    simp only [Option.bind_eq_bind, Option.some_bind, Option.pure_def, Option.some.injEq] at hn
    exact hn.symm
  · refine ⟨_, build_sprites_closed_form g r n cw ch hr hn hcs hcols, ?_, ?_⟩
    · rw [List.length_map, List.length_range]
    · intro cell hlt
      rw [List.get?_eq_getElem?, List.getElem?_map, List.getElem?_range hlt]
      rfl

/-- C4 witness: the grid `{width:100, height:100, columns:4, rows:1,
cell_size:(50,50)}` over-fits the sheet width (`4 * 50 > 100`, so the first
warning fires), yet all `4` regions are produced. -/
theorem grid_emission_witness :
    SpriteGrid.warnColumns ⟨100, 100, 4, some 1, none, some (50, 50), none⟩ 50 = true ∧
    ((SpriteGrid.build_sprites ⟨100, 100, 4, some 1, none, some (50, 50), none⟩).map
      List.length) = some 4 := by
  refine ⟨by decide, ?_⟩
  obtain ⟨-, -, l, hl, hlen, -⟩ :=
    grid_emission ⟨100, 100, 4, some 1, none, some (50, 50), none⟩ 1 4 50 50 rfl rfl rfl
      (by decide)
  rw [hl]
  simp [hlen]

/-- C6: the grid `{columns:4, rows:4, width:400, height:200}` (cell 100×50)
resolves to exactly 16 regions, and regions 0, 7 and 9 carry the normalized
texture coordinates of the normalizer formula:
`(0, 1/4, 1, 3/4)`, `(3/4, 1, 3/4, 1/2)` and `(1/4, 1/2, 1/2, 1/4)`. -/
theorem grid_col_row_concrete :
    ((SpriteGrid.build_sprites ⟨400, 200, 4, some 4, none, none, none⟩).map List.length)
      = some 16 ∧
    (((SpriteGrid.build_sprites ⟨400, 200, 4, some 4, none, none, none⟩).bind
        fun l => l.get? 0).map Sprite.tex_coords =
      some { left := 0, right := 1/4, top := 1, bottom := 3/4 }) ∧
    (((SpriteGrid.build_sprites ⟨400, 200, 4, some 4, none, none, none⟩).bind
        fun l => l.get? 7).map Sprite.tex_coords =
      some { left := 3/4, right := 1, top := 3/4, bottom := 1/2 }) ∧
    (((SpriteGrid.build_sprites ⟨400, 200, 4, some 4, none, none, none⟩).bind
        fun l => l.get? 9).map Sprite.tex_coords =
      some { left := 1/4, right := 1/2, top := 1/2, bottom := 1/4 }) := by
  have hb := build_sprites_closed_form ⟨400, 200, 4, some 4, none, none, none⟩ 4 16 100 50
    rfl rfl rfl (by decide)
  refine ⟨?_, ?_, ?_, ?_⟩
  · rw [hb]
    simp
  · rw [hb, Option.some_bind, List.get?_eq_getElem?, List.getElem?_map,
      List.getElem?_range (by norm_num)]
    simp [Sprite.from_pixel_values, SpriteGrid.positionResolved]
    norm_num
  · rw [hb, Option.some_bind, List.get?_eq_getElem?, List.getElem?_map,
      List.getElem?_range (by norm_num)]
    simp [Sprite.from_pixel_values, SpriteGrid.positionResolved]
    norm_num
  · rw [hb, Option.some_bind, List.get?_eq_getElem?, List.getElem?_map,
      List.getElem?_range (by norm_num)]
    simp [Sprite.from_pixel_values, SpriteGrid.positionResolved]
    norm_num

/-- C8: list resolution produces exactly one `SpriteRegion` per entry, in
declaration order (`len(resolve(ListSpec)) = len(entries)`), each entry's
rectangle passed through unchanged with no inference and no bounds checking,
and the pivot offset defaulting to `(0, 0)` when the entry's offset is
unspecified. -/
theorem list_resolver_one_per_entry (l : SpriteList) :
    l.build_sprites.length = l.sprites.length ∧
    (∀ i, i < l.sprites.length → l.build_sprites.get? i =
      (l.sprites.get? i).map fun pos =>
        Sprite.from_pixel_values l.width l.height pos.width pos.height pos.x pos.y
          (pos.offsets.getD (0, 0))) ∧
    (∀ i pos, l.sprites.get? i = some pos → pos.offsets = none →
      (l.build_sprites.get? i).map Sprite.offsets = some (0, 0)) := by
  refine ⟨List.length_map _ _, ?_, ?_⟩
  · intro i _
    simp [SpriteList.build_sprites, List.get?_eq_getElem?, List.getElem?_map]
  · intro i pos hpos hoff
    rw [List.get?_eq_getElem?] at hpos
    simp [SpriteList.build_sprites, List.get?_eq_getElem?, List.getElem?_map, hpos,
      Sprite.from_pixel_values, hoff]

/-- C8 witness: a two-entry list yields two sprites; the first entry leaves
its offset unspecified and receives pivot `(0, 0)`. -/
theorem list_resolver_one_per_entry_witness :
    (SpriteList.build_sprites ⟨10, 20, [⟨1, 2, 3, 4, none⟩, ⟨5, 6, 7, 8, some (1, 2)⟩]⟩).length
      = 2 ∧
    ((SpriteList.build_sprites
        ⟨10, 20, [⟨1, 2, 3, 4, none⟩, ⟨5, 6, 7, 8, some (1, 2)⟩]⟩).get? 0).map
      Sprite.offsets = some (0, 0) :=
  ⟨(list_resolver_one_per_entry ⟨10, 20, [⟨1, 2, 3, 4, none⟩, ⟨5, 6, 7, 8, some (1, 2)⟩]⟩).1,
   (list_resolver_one_per_entry ⟨10, 20, [⟨1, 2, 3, 4, none⟩, ⟨5, 6, 7, 8, some (1, 2)⟩]⟩).2.2
     0 ⟨1, 2, 3, 4, none⟩ rfl rfl⟩

/-- C1 (code bug): the spec demands that a `RenderRef` with `sheet_index ≥`
the registry length fail with a recoverable `RegistryIndexOutOfRange`
resolution error; the code instead panics through `Option::unwrap`
(`.get(self.sheet).cloned().unwrap()`), modelled here by `none`. -/
theorem renderRef_out_of_range_panics (p : SpriteRenderPrefab)
    (s : SpriteSheetLoadedSet) (h : s.val.length ≤ p.sheet) :
    p.load_sub_assets s = none := by
  have hget : s.val.get? p.sheet = none := by
    rw [List.get?_eq_getElem?]
    exact List.getElem?_eq_none h
  unfold SpriteRenderPrefab.load_sub_assets
  rw [hget]

/-- C1 witness: resolving `sheet_index = 0` against the empty registry
panics. -/
theorem renderRef_out_of_range_panics_witness :
    (SpriteSheetLoadedSet.mk []).val.length ≤ 0 ∧
    SpriteRenderPrefab.load_sub_assets ⟨0, 0, none⟩ ⟨[]⟩ = none :=
  ⟨by decide, renderRef_out_of_range_panics ⟨0, 0, none⟩ ⟨[]⟩ (by decide)⟩

/-- C7: after appending the handles `l` to the registry, resolving a
`RenderRef` with `sheet_index = k < l.length` stores the k-th appended
handle, and the outcome is unchanged by any later appends `extra`: an index
is stable once assigned. -/
theorem registry_index_stable (l extra : List SpriteSheetHandle)
    (k sprite_number : Nat) (handle0 : Option SpriteSheetHandle)
    (hk : k < l.length) :
    SpriteRenderPrefab.load_sub_assets ⟨k, sprite_number, handle0⟩ ⟨l⟩ =
      some (⟨k, sprite_number, some (l.get ⟨k, hk⟩)⟩, false) ∧
    SpriteRenderPrefab.load_sub_assets ⟨k, sprite_number, handle0⟩ ⟨l ++ extra⟩ =
      SpriteRenderPrefab.load_sub_assets ⟨k, sprite_number, handle0⟩ ⟨l⟩ := by
  have h1 : (l ++ extra).get? k = l.get? k := List.get?_append hk
  have h2 : l.get? k = some (l.get ⟨k, hk⟩) := List.get?_eq_get hk
  constructor
  · unfold SpriteRenderPrefab.load_sub_assets
    rw [h2]
  · unfold SpriteRenderPrefab.load_sub_assets
    rw [h1]

/-- C7 witness: with registry `[10, 20]`, index `1` resolves to the second
appended handle `20`, also after the later append of `30`. -/
theorem registry_index_stable_witness :
    SpriteRenderPrefab.load_sub_assets ⟨1, 0, none⟩ ⟨[10, 20]⟩ =
      some (⟨1, 0, some 20⟩, false) ∧
    SpriteRenderPrefab.load_sub_assets ⟨1, 0, none⟩ ⟨[10, 20] ++ [30]⟩ =
      SpriteRenderPrefab.load_sub_assets ⟨1, 0, none⟩ ⟨[10, 20]⟩ :=
  ⟨(registry_index_stable [10, 20] [30] 1 0 none (by decide)).1,
   (registry_index_stable [10, 20] [30] 1 0 none (by decide)).2⟩

/-- Unfolding equation: `load_sub_assets` on an already-resolved sheet prefab
changes nothing and returns `false`. -/
theorem sheetPrefab_load_handle (h : SpriteSheetHandle) (st : Loader) :
    (SpriteSheetPrefab.handle h).load_sub_assets st =
      some (SpriteSheetPrefab.handle h, st, false) := rfl

/-- Unfolding equation: `load_sub_assets` on an unresolved sheet definition
whose texture is already a handle. -/
theorem sheetPrefab_load_sheet_handle (th : TextureHandle) (sl : List Sprites) (st : Loader) :
    (SpriteSheetPrefab.sheet (TexturePrefab.handle th) sl).load_sub_assets st =
      (sl.mapM Sprites.build_sprites).map fun _ =>
        (SpriteSheetPrefab.handle st.next, Loader.mk (st.next + 1), true) := by
  unfold SpriteSheetPrefab.load_sub_assets
  cases hbuilt : sl.mapM Sprites.build_sprites <;>
    simp only [TexturePrefab.load_sub_assets, hbuilt, Option.bind_eq_bind, Option.none_bind,
      Option.some_bind, Option.map_none', Option.map_some', Loader.load_from_data] <;>
    try rfl

/-- Unfolding equation: `load_sub_assets` on an unresolved sheet definition
whose texture is an unresolved description. -/
theorem sheetPrefab_load_sheet_data (d : Nat) (sl : List Sprites) (st : Loader) :
    (SpriteSheetPrefab.sheet (TexturePrefab.data d) sl).load_sub_assets st =
      (sl.mapM Sprites.build_sprites).map fun _ =>
        (SpriteSheetPrefab.handle (st.next + 1), Loader.mk (st.next + 2), true) := by
  unfold SpriteSheetPrefab.load_sub_assets
  cases hbuilt : sl.mapM Sprites.build_sprites <;>
    simp only [TexturePrefab.load_sub_assets, hbuilt, Option.bind_eq_bind, Option.none_bind,
      Option.some_bind, Option.map_none', Option.map_some', Loader.load_from_data] <;>
    try rfl

/-- C9 counterexample: `SpriteRenderPrefab::load_sub_assets` records a newly
resolved handle into the instance (its state changes from `handle = none` to
`handle = some 7`) yet returns `false`, refuting "returns true exactly when
the instance's own state changed during that call". -/
theorem render_load_changes_but_returns_false :
    SpriteRenderPrefab.load_sub_assets ⟨0, 0, none⟩ ⟨[7]⟩ =
      some (⟨0, 0, some 7⟩, false) ∧
    (⟨0, 0, some 7⟩ : SpriteRenderPrefab) ≠ ⟨0, 0, none⟩ :=
  ⟨rfl, by decide⟩

/-- C9 amended: the changed-flag contract holds for `SpriteSheetPrefab`
(`load_sub_assets` returns `true` exactly when it replaced the instance); but
`SpriteRenderPrefab::load_sub_assets` always returns `false`, even on the
call that records the newly resolved handle into the instance. -/
theorem load_change_flag :
    (∀ (p : SpriteSheetPrefab) (st : Loader) (p1 : SpriteSheetPrefab) (st1 : Loader) (b : Bool),
      SpriteSheetPrefab.load_sub_assets p st = some (p1, st1, b) → (b = true ↔ p1 ≠ p)) ∧
    (∀ (rp : SpriteRenderPrefab) (s : SpriteSheetLoadedSet) (res : SpriteRenderPrefab × Bool),
      SpriteRenderPrefab.load_sub_assets rp s = some res → res.2 = false) := by
  constructor
  · intro p st p1 st1 b h
    cases p with
    | handle hh =>
      rw [sheetPrefab_load_handle] at h
      simp only [Option.some.injEq, Prod.mk.injEq] at h
      obtain ⟨rfl, -, rfl⟩ := h
      simp
    | sheet texture sl =>
      cases texture with
      | handle th =>
        rw [sheetPrefab_load_sheet_handle] at h
        cases hbuilt : sl.mapM Sprites.build_sprites <;> rw [hbuilt] at h
        · exact absurd h (by simp)
        · simp only [Option.map_some', Option.some.injEq, Prod.mk.injEq] at h
          obtain ⟨rfl, -, rfl⟩ := h
          exact iff_of_true rfl fun hcon => SpriteSheetPrefab.noConfusion hcon
      | data d =>
        rw [sheetPrefab_load_sheet_data] at h
        cases hbuilt : sl.mapM Sprites.build_sprites <;> rw [hbuilt] at h
        · exact absurd h (by simp)
        · simp only [Option.map_some', Option.some.injEq, Prod.mk.injEq] at h
          obtain ⟨rfl, -, rfl⟩ := h
          exact iff_of_true rfl fun hcon => SpriteSheetPrefab.noConfusion hcon
  · intro rp s res h
    unfold SpriteRenderPrefab.load_sub_assets at h
    cases hget : s.val.get? rp.sheet <;> rw [hget] at h
    · exact absurd h (by simp)
    · simp only [Option.some.injEq] at h
      rw [← h]

/-- C9 witness: the flag contract at concrete inputs — an already-resolved
sheet prefab reports no change, and the render prefab that just recorded
handle `7` still reports `false`. -/
theorem load_change_flag_witness :
    (false = true ↔ SpriteSheetPrefab.handle 3 ≠ SpriteSheetPrefab.handle 3) ∧
    ((⟨0, 0, some 7⟩, false) : SpriteRenderPrefab × Bool).2 = false :=
  ⟨load_change_flag.1 (SpriteSheetPrefab.handle 3) ⟨4⟩ (SpriteSheetPrefab.handle 3) ⟨4⟩
     false rfl,
   load_change_flag.2 ⟨0, 0, none⟩ ⟨[7]⟩ (⟨0, 0, some 7⟩, false) rfl⟩

/-- C3 counterexample: running `SpriteScenePrefab::load_sub_assets` twice,
the first call resolves the sheet (registry becomes `[0]`), and the second
call — on the now-resolved instance — leaves the instance and the loader
unchanged and returns `false`, but pushes the sheet handle onto the shared
registry again: the registry ends as `[0, 0]`, not `[0]`. -/
theorem scene_load_repeat_counterexample :
    SpriteScenePrefab.load_sub_assets
        ⟨some (SpriteSheetPrefab.sheet (TexturePrefab.handle 5) []), none, none⟩ ⟨0⟩ ⟨[]⟩ =
      some (⟨some (SpriteSheetPrefab.handle 0), none, none⟩, ⟨1⟩, ⟨[0]⟩, true) ∧
    SpriteScenePrefab.load_sub_assets
        ⟨some (SpriteSheetPrefab.handle 0), none, none⟩ ⟨1⟩ ⟨[0]⟩ =
      some (⟨some (SpriteSheetPrefab.handle 0), none, none⟩, ⟨1⟩, ⟨[0, 0]⟩, false) ∧
    SpriteSheetLoadedSet.mk [0, 0] ≠ SpriteSheetLoadedSet.mk [0] :=
  ⟨rfl, rfl, by decide⟩

/-- C3 amended: a second `load_sub_assets` on an already-resolved instance
leaves the instance state unchanged and returns `false` — and for
`SpriteSheetPrefab` and `SpriteRenderPrefab` alone it also leaves the shared
state unchanged — but `SpriteScenePrefab::load_sub_assets` is NOT idempotent
on the shared `SheetRegistry`: every call with a resolved sheet appends the
sheet handle to the registry again. -/
theorem load_repeat_registry_effect :
    (∀ (h : SpriteSheetHandle) (st : Loader),
      (SpriteSheetPrefab.handle h).load_sub_assets st =
        some (SpriteSheetPrefab.handle h, st, false)) ∧
    (∀ (rp : SpriteRenderPrefab) (s : SpriteSheetLoadedSet) (h : SpriteSheetHandle),
      rp.handle = some h → s.val.get? rp.sheet = some h →
      SpriteRenderPrefab.load_sub_assets rp s = some (rp, false)) ∧
    (∀ (h : SpriteSheetHandle) (tr : Option Nat) (st : Loader) (reg : SpriteSheetLoadedSet),
      SpriteScenePrefab.load_sub_assets ⟨some (SpriteSheetPrefab.handle h), none, tr⟩ st reg =
        some (⟨some (SpriteSheetPrefab.handle h), none, tr⟩, st,
          SpriteSheetLoadedSet.mk (reg.val ++ [h]), false)) := by
  refine ⟨fun h st => rfl, ?_, fun h tr st reg => rfl⟩
  intro rp s h hh hget
  obtain ⟨sh, sn, hnd⟩ := rp
  dsimp only at hh hget
  subst hh
  unfold SpriteRenderPrefab.load_sub_assets
  rw [hget]

/-- C3 witness: the three parts at concrete inputs; in particular a second
call on a scene prefab with resolved sheet `9` and registry `[9]` returns the
same instance but registry `[9, 9]`. -/
theorem load_repeat_registry_effect_witness :
    ((SpriteSheetPrefab.handle 9).load_sub_assets ⟨3⟩ =
      some (SpriteSheetPrefab.handle 9, ⟨3⟩, false)) ∧
    (SpriteRenderPrefab.load_sub_assets ⟨0, 2, some 9⟩ ⟨[9]⟩ =
      some (⟨0, 2, some 9⟩, false)) ∧
    (SpriteScenePrefab.load_sub_assets ⟨some (SpriteSheetPrefab.handle 9), none, none⟩
        ⟨3⟩ ⟨[9]⟩ =
      some (⟨some (SpriteSheetPrefab.handle 9), none, none⟩, ⟨3⟩, ⟨[9, 9]⟩, false)) :=
  ⟨load_repeat_registry_effect.1 9 ⟨3⟩,
   load_repeat_registry_effect.2.1 ⟨0, 2, some 9⟩ ⟨[9]⟩ 9 rfl rfl,
   load_repeat_registry_effect.2.2 9 none ⟨3⟩ ⟨[9]⟩⟩

end AmethystSprite
